import Mathlib

/-!
Verification of `internal/handlers/pg/pgdb/databases.go` (FerretDB PG backend,
database lifecycle: `Databases`, `CreateDatabase`, `CreateDatabaseIfNotExists`,
`DropDatabase`).

The Go functions talk to PostgreSQL through a `pgxtype.Querier`.  We embed them
as pure functions over an oracle describing the backend's answers: the outcome
of each issued statement (`Option GoErr`, `none` means success) is a parameter,
and each function additionally returns the trace of backend interactions it
performed (`List Event`), so that claims about "which SQL is issued" are
statable.

Helpers that the file uses but that are not part of the given source
(`validateDatabaseNameRe`, `reservedPrefix`, `createSettingsTable`,
`pgx.Identifier.Sanitize`, the error sentinels and `lazyerrors.Error`) are
modelled from the specification; each carries a doc comment saying so.
-/

namespace FerretDB.Pgdb

/-- A Go `error` value as it matters to `databases.go`:
a `*pgconn.PgError` carrying a SQLSTATE code, a sentinel error created with
`errors.New` (identified by its name), any other error (context cancellation,
network failure, ...), and a wrapped error as produced by `lazyerrors.Error`
(which wraps with `%w`, so `errors.Is` / `errors.As` see through it). -/
inductive GoErr where
  | pgError (code : String) : GoErr
  | sentinel (name : String) : GoErr
  | other (msg : String) : GoErr
  | wrapped (e : GoErr) : GoErr
deriving DecidableEq, Repr

/-- Modelled from the spec: sentinel returned when a schema already exists
("`CreateDatabase(name)` → `ok | AlreadyExists | InvalidName`"). -/
def ErrAlreadyExist : GoErr := GoErr.sentinel "ErrAlreadyExist"

/-- Modelled from the spec: sentinel returned for names failing validation. -/
def ErrInvalidDatabaseName : GoErr := GoErr.sentinel "ErrInvalidDatabaseName"

/-- Modelled from the spec: sentinel returned when the schema does not exist
("`DropDatabase(name)` → `ok | NotFound`"). -/
def ErrSchemaNotExist : GoErr := GoErr.sentinel "ErrSchemaNotExist"

/-- `lazyerrors.Error(err)`: wraps `err` preserving the cause (uses `%w`). -/
def lazyError (e : GoErr) : GoErr := GoErr.wrapped e

/-- Go `errors.Is(err, target)`: equality after unwrapping any number of
wrapping layers. -/
def errIs : GoErr → GoErr → Bool
  | GoErr.wrapped e, t => decide (GoErr.wrapped e = t) || errIs e t
  | e, t => decide (e = t)

/-- Go `errors.As(err, &pgErr)` for `*pgconn.PgError`: finds a PG error
anywhere in the wrapping chain and yields its SQLSTATE code. -/
def asPgError : GoErr → Option String
  | GoErr.pgError code => some code
  | GoErr.wrapped e => asPgError e
  | _ => none

/-- Go type assertion `err.(*pgconn.PgError)`: succeeds only on a bare
PG error, it does not unwrap. -/
def typeAssertPgError : GoErr → Option String
  | GoErr.pgError code => some code
  | _ => none

/-- pgerrcode.DuplicateSchema -/
def DuplicateSchema : String := "42P06"

/-- pgerrcode.UniqueViolation -/
def UniqueViolation : String := "23505"

/-- pgerrcode.DuplicateObject -/
def DuplicateObject : String := "42710"

/-- pgerrcode.InvalidSchemaName -/
def InvalidSchemaName : String := "3F000"

/-- First character class of the database-name regexp: `[a-z_-]`. -/
def isNameStartChar (c : Char) : Bool :=
  ('a' ≤ c && c ≤ 'z') || c == '_' || c == '-'

/-- Subsequent character class of the database-name regexp: `[a-z0-9_-]`. -/
def isNameChar (c : Char) : Bool :=
  isNameStartChar c || ('0' ≤ c && c ≤ '9')

/-- Modelled from the spec: `validateDatabaseNameRe` is not in the given
source; the spec says a database is "identified by name matching
`[a-z_-][a-z0-9_-]{0,62}`", i.e. the whole name is one character of
`[a-z_-]` followed by at most 62 characters of `[a-z0-9_-]`. -/
def validateDatabaseNameRe (db : String) : Bool :=
  match db.data with
  | [] => false
  | c :: rest => isNameStartChar c && decide (rest.length ≤ 62) && rest.all isNameChar

/-- Modelled from the spec: the reserved database-name prefix
(`_ferretdb_` is "forbidden"). -/
def reservedPref : String := "_ferretdb_"

/-- Go `strings.HasPrefix(s, pre)`, on the character lists. -/
def hasPrefixGo (s pre : String) : Bool :=
  pre.data.isPrefixOf s.data

/-- One character step of Go `strings.ReplaceAll(s, quote, quotequote)`:
every double-quote character is doubled. -/
def sanitizeChars : List Char → List Char
  | [] => []
  | c :: rest =>
      if c = '"' then '"' :: '"' :: sanitizeChars rest
      else c :: sanitizeChars rest

/-- Modelled from the spec: `pgx.Identifier.Sanitize` ("sanitized via
identifier quoting") for the single-part identifier `pgx.Identifier\x7bdb\x7d`:
the name with embedded double quotes doubled, enclosed in double quotes. -/
def sanitize (s : String) : String :=
  String.mk ('"' :: (sanitizeChars s.data ++ ['"']))

/-- One backend interaction of a `databases.go` function: an `Exec` or a
`Query` with the SQL text it sends, or a call to the (spec-modelled)
`createSettingsTable` helper. -/
inductive Event where
  | exec (sql : String) : Event
  | query (sql : String) : Event
  | settingsTable (db : String) : Event
deriving DecidableEq, Repr

/-- The `switch pgErr.Code` shared by `CreateDatabase` and
`CreateDatabaseIfNotExists` (after `errors.As`): duplicate-schema,
unique-violation and duplicate-object become `ErrAlreadyExist`, everything
else is wrapped by `lazyerrors.Error`; a non-PG error is wrapped as well. -/
def mapCreateErr (err : GoErr) : Option GoErr :=
  match asPgError err with
  | none => some (lazyError err)
  | some code =>
      if code = DuplicateSchema then some ErrAlreadyExist
      else if code = UniqueViolation || code = DuplicateObject then some ErrAlreadyExist
      else some (lazyError err)

/-- `CreateDatabase(ctx, querier, db)`.  `schemaErr` is the outcome of the
`CREATE SCHEMA` Exec; `settingsErr` is the outcome of the (spec-modelled)
`createSettingsTable` call, consulted only when the Exec succeeded.  Returns
the Go error result together with the trace of backend interactions. -/
def CreateDatabase (db : String) (schemaErr settingsErr : Option GoErr) :
    Option GoErr × List Event :=
  if !validateDatabaseNameRe db || hasPrefixGo db reservedPref then
    (some ErrInvalidDatabaseName, [])
  else
    match schemaErr with
    | some err => (mapCreateErr err, [Event.exec ("CREATE SCHEMA " ++ sanitize db)])
    | none =>
        match settingsErr with
        | none =>
            (none, [Event.exec ("CREATE SCHEMA " ++ sanitize db), Event.settingsTable db])
        | some err =>
            (mapCreateErr err,
             [Event.exec ("CREATE SCHEMA " ++ sanitize db), Event.settingsTable db])

/-- `CreateDatabaseIfNotExists(ctx, querier, db)`: same as `CreateDatabase`
except the SQL has `IF NOT EXISTS` and an error satisfying
`errors.Is(err, ErrAlreadyExist)` is turned into success before the
PG-error classification. -/
def CreateDatabaseIfNotExists (db : String) (schemaErr settingsErr : Option GoErr) :
    Option GoErr × List Event :=
  if !validateDatabaseNameRe db || hasPrefixGo db reservedPref then
    (some ErrInvalidDatabaseName, [])
  else
    match schemaErr with
    | some err =>
        (if errIs err ErrAlreadyExist then none else mapCreateErr err,
         [Event.exec ("CREATE SCHEMA IF NOT EXISTS " ++ sanitize db)])
    | none =>
        match settingsErr with
        | none =>
            (none,
             [Event.exec ("CREATE SCHEMA IF NOT EXISTS " ++ sanitize db),
              Event.settingsTable db])
        | some err =>
            (if errIs err ErrAlreadyExist then none else mapCreateErr err,
             [Event.exec ("CREATE SCHEMA IF NOT EXISTS " ++ sanitize db),
              Event.settingsTable db])

/-- `DropDatabase(ctx, querier, db)`.  `execErr` is the outcome of the
`DROP SCHEMA ... CASCADE` Exec.  Note: no name validation is performed. -/
def DropDatabase (db : String) (execErr : Option GoErr) :
    Option GoErr × List Event :=
  match execErr with
  | none => (none, [Event.exec ("DROP SCHEMA " ++ sanitize db ++ " CASCADE")])
  | some err =>
      (match typeAssertPgError err with
       | none => some (lazyError err)
       | some code =>
           if code = InvalidSchemaName then some ErrSchemaNotExist
           else some (lazyError err),
       [Event.exec ("DROP SCHEMA " ++ sanitize db ++ " CASCADE")])

/-- The SQL sent by `Databases`. -/
def databasesSQL : String :=
  "SELECT schema_name FROM information_schema.schemata ORDER BY schema_name"

/-- `Databases(ctx, querier)`, successful-scan path: `rows` is the list of
schema names the backend returns for `databasesSQL`; the loop keeps every
name except those starting with `pg_` and `information_schema`. -/
def Databases (rows : List String) : List String × List Event :=
  (rows.filter (fun name => !(hasPrefixGo name "pg_" || name == "information_schema")),
   [Event.query databasesSQL])

/-- The shape of every result of `CreateDatabase` / `CreateDatabaseIfNotExists`:
success, the invalid-name sentinel, the already-exists sentinel, or a wrapped
error preserving its cause. -/
def createResultShape (r : Option GoErr) : Prop :=
  r = none ∨ r = some ErrInvalidDatabaseName ∨ r = some ErrAlreadyExist ∨
    ∃ e, r = some (GoErr.wrapped e)

/-! Helper lemmas. -/

theorem sanitizeChars_of_no_quote (l : List Char) (h : ∀ c ∈ l, ¬ c = '"') :
    sanitizeChars l = l := by
  induction l with
  | nil => rfl
  | cons c rest ih =>
      have hc : ¬ c = '"' := h c (List.mem_cons_self c rest)
      simp only [sanitizeChars, if_neg hc]
      exact congrArg (c :: ·) (ih fun x hx => h x (List.mem_cons_of_mem c hx))

theorem isNameChar_no_quote (c : Char) (h : isNameChar c = true) : ¬ c = '"' := by
  intro hq
  subst hq
  simp [isNameChar, isNameStartChar] at h

theorem valid_name_chars (db : String) (hv : validateDatabaseNameRe db = true) :
    ∀ c ∈ db.data, isNameChar c = true := by
  unfold validateDatabaseNameRe at hv
  cases hdata : db.data with
  | nil => rw [hdata] at hv; exact absurd hv (by decide)
  | cons c rest =>
      rw [hdata] at hv
      simp only [Bool.and_eq_true, List.all_eq_true] at hv
      intro x hx
      rcases List.mem_cons.mp hx with hx | hx
      · subst hx
        simp only [isNameChar, hv.1.1, Bool.true_or]
      · exact hv.2 x hx

theorem sanitize_of_valid (db : String) (hv : validateDatabaseNameRe db = true) :
    sanitize db = "\"" ++ db ++ "\"" := by
  have hnq : ∀ c ∈ db.data, ¬ c = '"' := fun c hc =>
    isNameChar_no_quote c (valid_name_chars db hv c hc)
  show String.mk ('"' :: (sanitizeChars db.data ++ ['"'])) = "\"" ++ db ++ "\""
  rw [sanitizeChars_of_no_quote db.data hnq]
  cases db with
  | mk l => rfl

theorem mapCreateErr_shape (err : GoErr) :
    mapCreateErr err = some ErrAlreadyExist ∨ mapCreateErr err = some (GoErr.wrapped err) := by
  unfold mapCreateErr
  cases asPgError err with
  | none => exact Or.inr rfl
  | some code =>
      simp only [lazyError]
      split
      · exact Or.inl rfl
      · split
        · exact Or.inl rfl
        · exact Or.inr rfl

/-! Claim theorems. -/

/-- Claim C2: a name that fails the validation regexp or carries the reserved
prefix makes both `CreateDatabase` and `CreateDatabaseIfNotExists` return
`ErrInvalidDatabaseName` without issuing any SQL. -/
theorem create_invalid_name_rejected (db : String) (s₁ s₂ : Option GoErr)
    (h : validateDatabaseNameRe db = false ∨ hasPrefixGo db reservedPref = true) :
    CreateDatabase db s₁ s₂ = (some ErrInvalidDatabaseName, []) ∧
    CreateDatabaseIfNotExists db s₁ s₂ = (some ErrInvalidDatabaseName, []) := by
  have hcond : (!validateDatabaseNameRe db || hasPrefixGo db reservedPref) = true := by
    rcases h with h | h <;> simp [h]
  constructor <;> simp [CreateDatabase, CreateDatabaseIfNotExists, hcond]

/-- Witness for C2 at the spec's own scenario input `_ferretdb_x`. -/
theorem create_invalid_name_rejected_witness :
    CreateDatabase "_ferretdb_x" none none = (some ErrInvalidDatabaseName, []) ∧
    CreateDatabaseIfNotExists "_ferretdb_x" none none = (some ErrInvalidDatabaseName, []) :=
  create_invalid_name_rejected "_ferretdb_x" none none (Or.inr (by decide))

/-- Claim C3 counterexample: `DropDatabase` does not reject the
regexp-violating name `INVALID`; it issues the DROP SCHEMA statement for it. -/
theorem dropDatabase_issues_sql_for_invalid_name :
    validateDatabaseNameRe "INVALID" = false ∧
    (DropDatabase "INVALID" none).2 = [Event.exec "DROP SCHEMA \"INVALID\" CASCADE"] ∧
    ¬ (DropDatabase "INVALID" none).2 = [] := by
  refine ⟨by decide, ?_, by decide⟩
  decide

/-- Claim C3 (amended): `DropDatabase` performs no name validation at all:
for every name, valid or not, it issues exactly the DROP SCHEMA statement
for that (sanitized) name. -/
theorem dropDatabase_always_issues_sql (db : String) (r : Option GoErr) :
    (DropDatabase db r).2 = [Event.exec ("DROP SCHEMA " ++ sanitize db ++ " CASCADE")] := by
  cases r <;> rfl

/-- Claim C1 counterexample: a raw PostgreSQL duplicate-schema error (42P06)
from the `CREATE SCHEMA IF NOT EXISTS` Exec — the concurrent-creation race —
makes `CreateDatabaseIfNotExists` return `ErrAlreadyExist`, not success. -/
theorem createIfNotExists_race_returns_error :
    (CreateDatabaseIfNotExists "db" (some (GoErr.pgError "42P06")) none).1
      = some ErrAlreadyExist ∧
    ¬ (CreateDatabaseIfNotExists "db" (some (GoErr.pgError "42P06")) none).1 = none := by
  decide

/-- Claim C1 (amended): for a valid name, `CreateDatabaseIfNotExists` reports
success when both steps succeed and when the settings-table step reports a
(possibly wrapped) `ErrAlreadyExist`; but a raw PostgreSQL duplicate error
(duplicate_schema, unique_violation, duplicate_object) from either step makes
it return `ErrAlreadyExist` — an error — rather than success. -/
theorem createIfNotExists_already_exists_cases (db : String) (e : GoErr) (code : String)
    (hv : validateDatabaseNameRe db = true)
    (hp : hasPrefixGo db reservedPref = false)
    (he : errIs e ErrAlreadyExist = true)
    (hc : code = DuplicateSchema ∨ code = UniqueViolation ∨ code = DuplicateObject) :
    (CreateDatabaseIfNotExists db none none).1 = none ∧
    (CreateDatabaseIfNotExists db none (some e)).1 = none ∧
    (CreateDatabaseIfNotExists db (some (GoErr.pgError code)) none).1
      = some ErrAlreadyExist ∧
    (CreateDatabaseIfNotExists db none (some (GoErr.pgError code))).1
      = some ErrAlreadyExist := by
  have hcond : (!validateDatabaseNameRe db || hasPrefixGo db reservedPref) = false := by
    simp [hv, hp]
  have hpg : errIs (GoErr.pgError code) ErrAlreadyExist = false := by
    rcases hc with h | h | h <;> subst h <;> decide
  have hmap : mapCreateErr (GoErr.pgError code) = some ErrAlreadyExist := by
    rcases hc with h | h | h <;> subst h <;> decide
  refine ⟨?_, ?_, ?_, ?_⟩ <;> simp [CreateDatabaseIfNotExists, hcond, he, hpg, hmap]

/-- Witness for the amended C1. -/
theorem createIfNotExists_already_exists_cases_witness :
    (CreateDatabaseIfNotExists "mydb" none none).1 = none ∧
    (CreateDatabaseIfNotExists "mydb" none (some ErrAlreadyExist)).1 = none ∧
    (CreateDatabaseIfNotExists "mydb" (some (GoErr.pgError "23505")) none).1
      = some ErrAlreadyExist ∧
    (CreateDatabaseIfNotExists "mydb" none (some (GoErr.pgError "23505"))).1
      = some ErrAlreadyExist :=
  createIfNotExists_already_exists_cases "mydb" ErrAlreadyExist "23505"
    (by decide) (by decide) (by decide) (Or.inr (Or.inl rfl))

/-- Claim C4: for a valid name, `CreateDatabase` maps PostgreSQL duplicate
errors (42P06, 23505, 42710) from either step to `ErrAlreadyExist`, wraps any
other PostgreSQL error unclassified, and returns success when both steps
succeed. -/
theorem createDatabase_error_mapping (db : String) (code codeOther : String)
    (s : Option GoErr)
    (hv : validateDatabaseNameRe db = true)
    (hp : hasPrefixGo db reservedPref = false)
    (hdup : code = DuplicateSchema ∨ code = UniqueViolation ∨ code = DuplicateObject)
    (hnot : ¬ codeOther = DuplicateSchema ∧ ¬ codeOther = UniqueViolation ∧
      ¬ codeOther = DuplicateObject) :
    (CreateDatabase db none none).1 = none ∧
    (CreateDatabase db (some (GoErr.pgError code)) s).1 = some ErrAlreadyExist ∧
    (CreateDatabase db none (some (GoErr.pgError code))).1 = some ErrAlreadyExist ∧
    (CreateDatabase db (some (GoErr.pgError codeOther)) s).1
      = some (GoErr.wrapped (GoErr.pgError codeOther)) ∧
    (CreateDatabase db none (some (GoErr.pgError codeOther))).1
      = some (GoErr.wrapped (GoErr.pgError codeOther)) := by
  have hcond : (!validateDatabaseNameRe db || hasPrefixGo db reservedPref) = false := by
    simp [hv, hp]
  have hmap : mapCreateErr (GoErr.pgError code) = some ErrAlreadyExist := by
    rcases hdup with h | h | h <;> subst h <;> decide
  have hmapOther : mapCreateErr (GoErr.pgError codeOther)
      = some (GoErr.wrapped (GoErr.pgError codeOther)) := by
    simp [mapCreateErr, asPgError, lazyError, hnot.1, hnot.2.1, hnot.2.2]
  refine ⟨?_, ?_, ?_, ?_, ?_⟩ <;> simp [CreateDatabase, hcond, hmap, hmapOther]

/-- Witness for C4 with a duplicate code and an unrelated SQLSTATE (28000). -/
theorem createDatabase_error_mapping_witness :
    (CreateDatabase "appdb" none none).1 = none ∧
    (CreateDatabase "appdb" (some (GoErr.pgError "42P06")) none).1 = some ErrAlreadyExist ∧
    (CreateDatabase "appdb" none (some (GoErr.pgError "42P06"))).1 = some ErrAlreadyExist ∧
    (CreateDatabase "appdb" (some (GoErr.pgError "28000")) none).1
      = some (GoErr.wrapped (GoErr.pgError "28000")) ∧
    (CreateDatabase "appdb" none (some (GoErr.pgError "28000"))).1
      = some (GoErr.wrapped (GoErr.pgError "28000")) :=
  createDatabase_error_mapping "appdb" "42P06" "28000" none
    (by decide) (by decide) (Or.inl rfl) (by decide)

/-- Claim C5: `DropDatabase` returns success when the Exec succeeds, returns
`ErrSchemaNotExist` exactly when the Exec fails with a bare PG error whose
SQLSTATE is 3F000 (invalid_schema_name), and wraps every other failure. -/
theorem dropDatabase_error_mapping (db : String) (r : Option GoErr) :
    (DropDatabase db none).1 = none ∧
    ((DropDatabase db r).1 = some ErrSchemaNotExist ↔
      ∃ e, r = some e ∧ typeAssertPgError e = some InvalidSchemaName) ∧
    (∀ e, r = some e → ¬ typeAssertPgError e = some InvalidSchemaName →
      (DropDatabase db r).1 = some (GoErr.wrapped e)) := by
  refine ⟨rfl, ?_, ?_⟩
  · cases r with
    | none => simp [DropDatabase]
    | some e =>
        simp only [DropDatabase, Option.some.injEq, exists_eq_left']
        cases htp : typeAssertPgError e with
        | none => simp [htp, lazyError, ErrSchemaNotExist]
        | some code =>
            by_cases hcode : code = InvalidSchemaName
            · subst hcode; simp [htp]
            · simp [htp, hcode, lazyError, ErrSchemaNotExist]
  · intro e hr htp
    subst hr
    cases h : typeAssertPgError e with
    | none => simp [DropDatabase, h, lazyError]
    | some code =>
        have hcode : ¬ code = InvalidSchemaName := fun hc => htp (hc ▸ h)
        simp [DropDatabase, h, hcode, lazyError]

/-- Witness for C5: a network failure (not a PG error) comes back wrapped. -/
theorem dropDatabase_error_mapping_witness :
    (DropDatabase "somedb" (some (GoErr.other "network"))).1
      = some (GoErr.wrapped (GoErr.other "network")) :=
  (dropDatabase_error_mapping "somedb" (some (GoErr.other "network"))).2.2
    (GoErr.other "network") rfl (by decide)

/-- Claim C6: `Databases` hides every schema whose name starts with `pg_` as
well as `information_schema`, and keeps every other reported schema name. -/
theorem databases_visibility (rows : List String) :
    (∀ name ∈ (Databases rows).1,
        hasPrefixGo name "pg_" = false ∧ ¬ name = "information_schema") ∧
    (∀ name ∈ rows, hasPrefixGo name "pg_" = false → ¬ name = "information_schema" →
        name ∈ (Databases rows).1) := by
  constructor
  · intro name hmem
    have hpred := List.of_mem_filter hmem
    simp only [Bool.not_eq_true', Bool.or_eq_false_iff, beq_eq_false_iff_ne, ne_eq] at hpred
    exact hpred
  · intro name hmem h1 h2
    exact List.mem_filter.mpr ⟨hmem, by simp [h1, h2]⟩

/-- Witness for C6: an ordinary schema is kept. -/
theorem databases_visibility_witness :
    "a" ∈ (Databases ["a", "information_schema", "pg_catalog"]).1 :=
  (databases_visibility ["a", "information_schema", "pg_catalog"]).2 "a"
    (by decide) (by decide) (by decide)

/-- Claim C7: when the backend returns the schema names sorted (as the issued
`ORDER BY schema_name` query requests), the list `Databases` returns is sorted
in ascending order. -/
theorem databases_sorted (rows : List String) (h : List.Sorted (· ≤ ·) rows) :
    List.Sorted (· ≤ ·) (Databases rows).1 ∧
    (Databases rows).2 = [Event.query databasesSQL] :=
  ⟨List.Pairwise.filter _ h, rfl⟩

/-- Witness for C7. -/
theorem databases_sorted_witness :
    List.Sorted (· ≤ ·) (Databases ["alpha", "beta"]).1 ∧
    (Databases ["alpha", "beta"]).2 = [Event.query databasesSQL] :=
  databases_sorted ["alpha", "beta"]
    (by simp [List.sorted_cons]; decide)

/-- Claim C8: for every name accepted by validation, the SQL of the three
schema operations embeds exactly that name as one double-quoted identifier:
the created or dropped schema is named exactly like the database. -/
theorem sql_embeds_sanitized_name (db : String) (s₁ s₂ r : Option GoErr)
    (hv : validateDatabaseNameRe db = true)
    (hp : hasPrefixGo db reservedPref = false) :
    sanitize db = "\"" ++ db ++ "\"" ∧
    (CreateDatabase db s₁ s₂).2.head?
      = some (Event.exec ("CREATE SCHEMA " ++ ("\"" ++ db ++ "\""))) ∧
    (CreateDatabaseIfNotExists db s₁ s₂).2.head?
      = some (Event.exec ("CREATE SCHEMA IF NOT EXISTS " ++ ("\"" ++ db ++ "\""))) ∧
    (DropDatabase db r).2
      = [Event.exec ("DROP SCHEMA " ++ ("\"" ++ db ++ "\"") ++ " CASCADE")] := by
  have hs := sanitize_of_valid db hv
  have hcond : (!validateDatabaseNameRe db || hasPrefixGo db reservedPref) = false := by
    simp [hv, hp]
  refine ⟨hs, ?_, ?_, ?_⟩
  · cases s₁ <;> cases s₂ <;> simp [CreateDatabase, hcond, hs]
  · cases s₁ <;> cases s₂ <;> simp [CreateDatabaseIfNotExists, hcond, hs]
  · cases r <;> simp [DropDatabase, hs]

/-- Witness for C8. -/
theorem sql_embeds_sanitized_name_witness :
    sanitize "t-db_1" = "\"" ++ "t-db_1" ++ "\"" ∧
    (CreateDatabase "t-db_1" none none).2.head?
      = some (Event.exec ("CREATE SCHEMA " ++ ("\"" ++ "t-db_1" ++ "\""))) ∧
    (CreateDatabaseIfNotExists "t-db_1" none none).2.head?
      = some (Event.exec ("CREATE SCHEMA IF NOT EXISTS " ++ ("\"" ++ "t-db_1" ++ "\""))) ∧
    (DropDatabase "t-db_1" none).2
      = [Event.exec ("DROP SCHEMA " ++ ("\"" ++ "t-db_1" ++ "\"") ++ " CASCADE")] :=
  sql_embeds_sanitized_name "t-db_1" none none none (by decide) (by decide)

/-- Claim C9: in both create functions, for a valid name the settings-table
step runs exactly when the CREATE SCHEMA Exec succeeded; when that Exec fails
the call issues nothing further. -/
theorem settings_called_iff_schema_ok (db : String) (settingsErr : Option GoErr) (e : GoErr)
    (hv : validateDatabaseNameRe db = true)
    (hp : hasPrefixGo db reservedPref = false) :
    (CreateDatabase db none settingsErr).2
      = [Event.exec ("CREATE SCHEMA " ++ sanitize db), Event.settingsTable db] ∧
    (CreateDatabase db (some e) settingsErr).2
      = [Event.exec ("CREATE SCHEMA " ++ sanitize db)] ∧
    (CreateDatabaseIfNotExists db none settingsErr).2
      = [Event.exec ("CREATE SCHEMA IF NOT EXISTS " ++ sanitize db),
         Event.settingsTable db] ∧
    (CreateDatabaseIfNotExists db (some e) settingsErr).2
      = [Event.exec ("CREATE SCHEMA IF NOT EXISTS " ++ sanitize db)] := by
  have hcond : (!validateDatabaseNameRe db || hasPrefixGo db reservedPref) = false := by
    simp [hv, hp]
  refine ⟨?_, ?_, ?_, ?_⟩ <;> cases settingsErr <;>
    simp [CreateDatabase, CreateDatabaseIfNotExists, hcond]

/-- Witness for C9. -/
theorem settings_called_iff_schema_ok_witness :
    (CreateDatabase "wdb" none (some (GoErr.other "boom"))).2
      = [Event.exec ("CREATE SCHEMA " ++ sanitize "wdb"), Event.settingsTable "wdb"] ∧
    (CreateDatabase "wdb" (some (GoErr.other "boom")) (some (GoErr.other "boom"))).2
      = [Event.exec ("CREATE SCHEMA " ++ sanitize "wdb")] ∧
    (CreateDatabaseIfNotExists "wdb" none (some (GoErr.other "boom"))).2
      = [Event.exec ("CREATE SCHEMA IF NOT EXISTS " ++ sanitize "wdb"),
         Event.settingsTable "wdb"] ∧
    (CreateDatabaseIfNotExists "wdb" (some (GoErr.other "boom")) (some (GoErr.other "boom"))).2
      = [Event.exec ("CREATE SCHEMA IF NOT EXISTS " ++ sanitize "wdb")] :=
  settings_called_iff_schema_ok "wdb" (some (GoErr.other "boom")) (GoErr.other "boom")
    (by decide) (by decide)

/-- Claim C10 counterexample: `ErrAlreadyExist` coming from the settings-table
step is not a PostgreSQL error, yet `CreateDatabaseIfNotExists` returns nil
for it instead of returning it wrapped. -/
theorem createIfNotExists_sentinel_not_wrapped :
    asPgError ErrAlreadyExist = none ∧
    (CreateDatabaseIfNotExists "okdb" none (some ErrAlreadyExist)).1 = none ∧
    ¬ (CreateDatabaseIfNotExists "okdb" none (some ErrAlreadyExist)).1
        = some (GoErr.wrapped ErrAlreadyExist) := by
  decide

/-- Claim C10 (amended): for a valid name, a non-PostgreSQL error that does
not satisfy `errors.Is(err, ErrAlreadyExist)` is returned wrapped (hence never
as `ErrAlreadyExist`) by both create functions — `CreateDatabaseIfNotExists`
turns an `ErrAlreadyExist`-like error into success instead — and every result
of either function is nil, `ErrInvalidDatabaseName`, `ErrAlreadyExist`, or a
wrapped error preserving the original cause. -/
theorem create_non_pg_error_wrapped (db : String) (e : GoErr) (r s : Option GoErr)
    (hv : validateDatabaseNameRe db = true)
    (hp : hasPrefixGo db reservedPref = false)
    (hpg : asPgError e = none)
    (hae : errIs e ErrAlreadyExist = false) :
    (CreateDatabase db (some e) s).1 = some (GoErr.wrapped e) ∧
    (CreateDatabase db none (some e)).1 = some (GoErr.wrapped e) ∧
    (CreateDatabaseIfNotExists db (some e) s).1 = some (GoErr.wrapped e) ∧
    (CreateDatabaseIfNotExists db none (some e)).1 = some (GoErr.wrapped e) ∧
    createResultShape (CreateDatabase db r s).1 ∧
    createResultShape (CreateDatabaseIfNotExists db r s).1 := by
  have hcond : (!validateDatabaseNameRe db || hasPrefixGo db reservedPref) = false := by
    simp [hv, hp]
  have hmap : mapCreateErr e = some (GoErr.wrapped e) := by
    simp [mapCreateErr, hpg, lazyError]
  refine ⟨?_, ?_, ?_, ?_, ?_, ?_⟩
  · simp [CreateDatabase, hcond, hmap]
  · simp [CreateDatabase, hcond, hmap]
  · simp [CreateDatabaseIfNotExists, hcond, hae, hmap]
  · simp [CreateDatabaseIfNotExists, hcond, hae, hmap]
  · cases r with
    | none =>
        cases s with
        | none => exact Or.inl (by simp [CreateDatabase, hcond])
        | some err =>
            rcases mapCreateErr_shape err with hm | hm
            · exact Or.inr (Or.inr (Or.inl (by simp [CreateDatabase, hcond, hm])))
            · exact Or.inr (Or.inr (Or.inr ⟨err, by simp [CreateDatabase, hcond, hm]⟩))
    | some err =>
        rcases mapCreateErr_shape err with hm | hm
        · exact Or.inr (Or.inr (Or.inl (by simp [CreateDatabase, hcond, hm])))
        · exact Or.inr (Or.inr (Or.inr ⟨err, by simp [CreateDatabase, hcond, hm]⟩))
  · cases r with
    | none =>
        cases s with
        | none => exact Or.inl (by simp [CreateDatabaseIfNotExists, hcond])
        | some err =>
            by_cases hie : errIs err ErrAlreadyExist = true
            · exact Or.inl (by simp [CreateDatabaseIfNotExists, hcond, hie])
            · rcases mapCreateErr_shape err with hm | hm
              · exact Or.inr (Or.inr (Or.inl
                  (by simp [CreateDatabaseIfNotExists, hcond, hie, hm])))
              · exact Or.inr (Or.inr (Or.inr ⟨err,
                  by simp [CreateDatabaseIfNotExists, hcond, hie, hm]⟩))
    | some err =>
        by_cases hie : errIs err ErrAlreadyExist = true
        · exact Or.inl (by simp [CreateDatabaseIfNotExists, hcond, hie])
        · rcases mapCreateErr_shape err with hm | hm
          · exact Or.inr (Or.inr (Or.inl
              (by simp [CreateDatabaseIfNotExists, hcond, hie, hm])))
          · exact Or.inr (Or.inr (Or.inr ⟨err,
              by simp [CreateDatabaseIfNotExists, hcond, hie, hm]⟩))

/-- Witness for the amended C10: a context-cancellation error. -/
theorem create_non_pg_error_wrapped_witness :
    (CreateDatabase "cdb" (some (GoErr.other "context canceled")) none).1
      = some (GoErr.wrapped (GoErr.other "context canceled")) ∧
    (CreateDatabase "cdb" none (some (GoErr.other "context canceled"))).1
      = some (GoErr.wrapped (GoErr.other "context canceled")) ∧
    (CreateDatabaseIfNotExists "cdb" (some (GoErr.other "context canceled")) none).1
      = some (GoErr.wrapped (GoErr.other "context canceled")) ∧
    (CreateDatabaseIfNotExists "cdb" none (some (GoErr.other "context canceled"))).1
      = some (GoErr.wrapped (GoErr.other "context canceled")) ∧
    createResultShape (CreateDatabase "cdb" (some (GoErr.other "context canceled")) none).1 ∧
    createResultShape
      (CreateDatabaseIfNotExists "cdb" (some (GoErr.other "context canceled")) none).1 :=
  create_non_pg_error_wrapped "cdb" (GoErr.other "context canceled")
    (some (GoErr.other "context canceled")) none
    (by decide) (by decide) (by decide) (by decide)

end FerretDB.Pgdb
